import Mathlib

/-!
Verification of the bot-detector rule engine against its specification.

The definitions below are a shallow embedding of the Python sources:
`detectors/rule_engine.py`, `detectors/mouse_analyzer.py`,
`detectors/honeypot_detector.py`, `detectors/fingerprint_analyzer.py` and
`storage/jsonl_handler.py`.

Modelling conventions:
* Python floats are modelled by `ℚ` where the source only ever produces
  rationals (confidences, ratios) and by `ℝ` where transcendental functions
  occur (angles, square roots).
* JSON dictionary fields are modelled with `Option`: for fields whose key
  presence is tested (`'x' in e`), `Option (Option ℤ)` distinguishes an
  absent key (`none`) from a key holding JSON `null` (`some none`).
* Code that can raise a Python exception is modelled in `Except String`;
  the engine has no try/except, so errors propagate through `bind`.
-/

/-- A behavioural event as stored in `events.jsonl` and re-read by
`JSONLHandler.get_session_events`.  Fields mirror the keys the detectors
access; `session_id` and `event_type` merge "absent" and "null" (both compare
unequal to any string), while `x`, `y`, `velocity` and `timestamp` keep the
distinction because the code tests key presence with `'x' in e`. -/
structure Event where
  session_id : Option String
  event_type : Option String
  x : Option (Option ℤ)
  y : Option (Option ℤ)
  velocity : Option (Option ℚ)
  timestamp : Option (Option ℤ)
  is_honeypot : Option Bool
deriving DecidableEq, Repr

/-- The login payload (`models/session.py`, `LoginRequest`).  The honeypot
fields are `Optional[str]` in pydantic, hence `Option String` here. -/
structure LoginRequest where
  username : String
  password : String
  session_id : String
  time_to_submit : ℤ
  form_time : String
  website : Option String
  email_confirm : Option String
  bot_field : Option String
  verify : Option String
deriving DecidableEq, Repr

/-- A declared device fingerprint as read from a stored session record. -/
structure Fingerprint where
  user_agent : Option String
  hardware_concurrency : Option ℤ
  canvas_hash : Option String
deriving DecidableEq, Repr

/-- A record of `sessions.jsonl`; the engine looks at `session_id` and the
presence of a `fingerprint` key. -/
structure SessionRec where
  session_id : Option String
  fingerprint : Option Fingerprint
deriving DecidableEq, Repr

/-- The result dictionary produced by one rule check.  `field` and
`value_length` are the extra keys the honeypot form check adds to a
triggered result; they are `none` for every other check. -/
structure RuleResult where
  is_bot : Bool
  reason : String
  confidence : ℚ
  rule : String
  field : Option String := none
  value_length : Option ℕ := none
deriving DecidableEq, Repr

/-- The dictionary returned by `BotDetectionEngine.analyze_session`. -/
structure Verdict where
  is_bot : Bool
  confidence : ℚ
  flags : List RuleResult
  reason : String
  timestamp : ℤ
deriving DecidableEq, Repr

/-! ## Storage (`storage/jsonl_handler.py`)

A JSONL file is a list of lines in append order; `none` stands for a blank
or malformed line (skipped by every reader). -/

/-- Truthiness of the `limit` argument combined with the `len(records) >=
limit` test of `read_all` (`if limit and len(records) >= limit: break`). -/
def limitReached (limit : Option ℕ) (n : ℕ) : Bool :=
  match limit with
  | none => false
  | some 0 => false
  | some m => n ≥ m

/-- Loop of `JSONLHandler.read_all`: parsed records are accumulated in file
order and the scan stops once `limit` (when truthy) records were read.  The
record type is a parameter: the `events` and `sessions` collections hold
different record shapes. -/
def readAllAux {α : Type} (limit : Option ℕ) : List (Option α) → ℕ → List α
  | [], _ => []
  | none :: rest, k => readAllAux limit rest k
  | some r :: rest, k =>
      if limitReached limit (k + 1) then [r] else r :: readAllAux limit rest (k + 1)

/-- Model of `JSONLHandler.read_all`: records in append order, malformed lines
skipped, optionally capped at `limit`. -/
def read_all {α : Type} (file : List (Option α)) (limit : Option ℕ) : List α :=
  readAllAux limit file 0

/-- Model of `JSONLHandler.get_session_events`: single scan keeping the events whose
`session_id` equals the given identifier and, when `event_type` is supplied,
whose `event_type` equals it. -/
def get_session_events (file : List (Option Event)) (sid : String)
    (etype : Option String) : List Event :=
  file.filterMap (fun line =>
    line.bind (fun e =>
      if e.session_id = some sid then
        if etype = none ∨ e.event_type = etype then some e else none
      else none))

/-! ## Honeypot detector (`detectors/honeypot_detector.py`) -/

/-- Python's `str.strip()`: drop leading and trailing whitespace. -/
def pyStrip (s : String) : String :=
  ⟨(((s.toList.dropWhile Char.isWhitespace).reverse).dropWhile Char.isWhitespace).reverse⟩

/-- Python's `str.lower()`. -/
def pyLower (s : String) : String :=
  ⟨s.toList.map Char.toLower⟩

/-- Python truthiness of `value and value.strip()` for an optional string. -/
def filledB : Option String → Bool
  | none => false
  | some s => !(s == "") && !(pyStrip s == "")

/-- The fixed decoy field names, in the order `check_form` scans them. -/
def honeypot_fields : List String := ["website", "email_confirm", "bot_field", "verify"]

/-- The name/value pairs `check_form` reads off the submission via
`getattr`, in scan order. -/
def honeypotFieldVals (l : LoginRequest) : List (String × Option String) :=
  [("website", l.website), ("email_confirm", l.email_confirm),
   ("bot_field", l.bot_field), ("verify", l.verify)]

/-- The non-triggered result of the form check. -/
def hpFormClean : RuleResult :=
  { is_bot := false, reason := "", confidence := 0, rule := "honeypot_form" }

/-- Loop body of `HoneypotDetector.check_form`: return on the first decoy
field holding a non-blank value. -/
def checkFormGo : List (String × Option String) → RuleResult
  | [] => hpFormClean
  | (f, v) :: rest =>
      match v with
      | none => checkFormGo rest
      | some s =>
          if !(s == "") && !(pyStrip s == "") then
            { is_bot := true,
              reason := "Honeypot field '" ++ f ++ "' was filled",
              confidence := 1, rule := "honeypot_form",
              field := some f, value_length := some s.length }
          else checkFormGo rest

/-- Model of `HoneypotDetector.check_form`. -/
def check_form (l : LoginRequest) : RuleResult :=
  checkFormGo (honeypotFieldVals l)

/-- Python truthiness of `e.get('is_honeypot')`. -/
def truthyHp : Option Bool → Bool
  | some true => true
  | _ => false

/-- The honeypot-specific event kinds scanned for by `check_interactions`. -/
def honeypotKinds : List String :=
  ["honeypot_focus", "honeypot_filled", "honeypot_link_clicked"]

/-- Whether one event counts as a honeypot interaction. -/
def isHoneypotEvent (e : Event) : Bool :=
  truthyHp e.is_honeypot ||
    (match e.event_type with
     | some t => decide (t ∈ honeypotKinds)
     | none => false)

/-- How Python renders `first_event.get('event_type')` inside an f-string. -/
def optTypeStr : Option String → String
  | none => "None"
  | some t => t

/-- Model of `HoneypotDetector.check_interactions`: scan the whole session history
and report the first honeypot interaction in append order. -/
def check_interactions (file : List (Option Event)) (sid : String) : RuleResult :=
  let events := get_session_events file sid none
  match events.filter isHoneypotEvent with
  | [] => { is_bot := false, reason := "", confidence := 0, rule := "honeypot_interaction" }
  | e :: _ =>
      { is_bot := true,
        reason := "Honeypot interaction: " ++ optTypeStr e.event_type,
        confidence := 1, rule := "honeypot_interaction" }

/-! ## Fingerprint analyzer (`detectors/fingerprint_analyzer.py`) -/

/-- Substring test on character lists (Python's `needle in hay`). -/
def subChars (n : List Char) : List Char → Bool
  | [] => n.isEmpty
  | c :: rest => List.isPrefixOf n (c :: rest) || subChars n rest

/-- Python's `needle in hay` on strings. -/
def strContainsSub (hay needle : String) : Bool :=
  subChars needle.toList hay.toList

/-- The suspicious user-agent markers, in the order `analyze` scans them
(headless list first, then automation list). -/
def uaPatterns : List String :=
  ["HeadlessChrome", "Headless", "PhantomJS", "Selenium", "WebDriver"]

/-- Model of `FingerprintAnalyzer.analyze`: user-agent markers, then hardware
concurrency below 1, then the canvas sentinel; first match wins. -/
def FingerprintAnalyzer.analyze (fp : Fingerprint) : RuleResult :=
  let ua := fp.user_agent.getD ""
  match uaPatterns.find? (fun p => strContainsSub (pyLower ua) (pyLower p)) with
  | some p =>
      { is_bot := true, reason := "Suspicious user agent: " ++ p,
        confidence := 0.95, rule := "fingerprint_user_agent" }
  | none =>
      let cores := fp.hardware_concurrency.getD 0
      if cores < 1 then
        { is_bot := true,
          reason := "Impossible hardware: " ++ toString cores ++ " CPU cores",
          confidence := 0.9, rule := "fingerprint_hardware" }
      else
        let canvas := fp.canvas_hash.getD ""
        if canvas = "canvas_unavailable" then
          { is_bot := true, reason := "Canvas fingerprint unavailable",
            confidence := 0.7, rule := "fingerprint_canvas" }
        else
          { is_bot := false, reason := "", confidence := 0, rule := "fingerprint" }

/-! ## Submission timing check (`rule_engine.py`, `check_submit_time`) -/

/-- Threshold constant `MIN_SUBMIT_TIME_MS` of `rule_engine.py`. -/
def MIN_SUBMIT_TIME_MS : ℤ := 2000

/-- Python's `round(q, 2)` modelled on `ℚ`: round to the nearest hundredth. -/
def round2 (q : ℚ) : ℚ := (round (q * 100) : ℚ) / 100

/-- Model of `BotDetectionEngine.check_submit_time`. -/
def check_submit_time (login : LoginRequest) : RuleResult :=
  let t := login.time_to_submit
  if t < MIN_SUBMIT_TIME_MS then
    { is_bot := true, rule := "submit_time",
      reason := "Form submitted too quickly: " ++ toString t ++
        "ms (Threshold: " ++ toString MIN_SUBMIT_TIME_MS ++ "ms)",
      confidence := round2 (1 - (t : ℚ) / (MIN_SUBMIT_TIME_MS : ℚ)) }
  else
    { is_bot := false, rule := "submit_time",
      reason := "Normal submission time", confidence := 0 }

/-! ## Mouse analyzer (`detectors/mouse_analyzer.py`)

Arithmetic on a value read as JSON `null` raises `TypeError` in Python; the
corresponding operations here live in `Except String`. -/

/-- Subtraction of two possibly-`null` integers (`a - b` raises `TypeError`
when either operand is `None`). -/
def optSub (a b : Option ℤ) : Except String ℤ :=
  match a, b with
  | some a, some b => .ok (a - b)
  | _, _ => .error "TypeError"

/-- Reading `e.get('timestamp', 0)`: `some 0` when the key is absent, `none` when it
holds `null`. -/
def tsVal (e : Event) : Option ℤ :=
  match e.timestamp with
  | none => some 0
  | some v => v

/-- Reading `e.get('x', 0)` for the impossible-speed check. -/
def xVal (e : Event) : Option ℤ :=
  match e.x with
  | none => some 0
  | some v => v

/-- Reading `e.get('y', 0)` for the impossible-speed check. -/
def yVal (e : Event) : Option ℤ :=
  match e.y with
  | none => some 0
  | some v => v

/-- The point `(e['x'], e['y'])` for events carrying both keys (values may
still be `null`), as extracted by `_check_perfect_line`. -/
def pointOf (e : Event) : Option (Option ℤ × Option ℤ) :=
  match e.x, e.y with
  | some vx, some vy => some (vx, vy)
  | _, _ => none

/-- Python's `math.atan2(y, x)`, i.e. the argument of the complex number `x + y·i`. -/
noncomputable def pyAtan2 (y x : ℝ) : ℝ :=
  Complex.arg { re := x, im := y }

/-- Python's `math.degrees(math.atan2(dy, dx))` on integer deltas. -/
noncomputable def degAngle (dy dx : ℤ) : ℝ :=
  pyAtan2 (dy : ℝ) (dx : ℝ) * 180 / Real.pi

/-- The loop of `_calculate_angle_variance` building the consecutive-segment
angle list; a `null` coordinate raises at the first offending pair. -/
noncomputable def anglesOf : List (Option ℤ × Option ℤ) → Except String (List ℝ)
  | p1 :: p2 :: rest => do
      let dx ← optSub p2.1 p1.1
      let dy ← optSub p2.2 p1.2
      let tail ← anglesOf (p2 :: rest)
      .ok (degAngle dy dx :: tail)
  | _ => .ok []

/-- Python's `statistics.stdev`: sample standard deviation (denominator `n - 1`). -/
noncomputable def sampleStdDev (l : List ℝ) : ℝ :=
  let n : ℝ := l.length
  let mean := l.sum / n
  Real.sqrt ((l.map (fun a => (a - mean) ^ 2)).sum / (n - 1))

/-- Model of `MouseAnalyzer._calculate_angle_variance`: sentinel `100.0` for fewer
than 3 points, otherwise the sample standard deviation of the angle list
(the `except` around `statistics.stdev` yields the sentinel again for fewer
than 2 angles). -/
noncomputable def calculate_angle_variance
    (pts : List (Option ℤ × Option ℤ)) : Except String ℝ :=
  if pts.length < 3 then .ok 100
  else do
    let angles ← anglesOf pts
    if angles.length < 2 then .ok 100 else .ok (sampleStdDev angles)

/-- Model of `MouseAnalyzer._create_result`. -/
def mkMouseRes (b : Bool) (reason : String) (confidence : ℚ) : RuleResult :=
  { is_bot := b, reason := reason, confidence := confidence, rule := "mouse_behavior" }

/-- Rendering of `n / 100` the way `{v:.2f}` renders a value already rounded
to hundredths. -/
def fmt2Int (n : ℤ) : String :=
  (if n < 0 then "-" else "") ++ toString (n.natAbs / 100) ++ "." ++
    (if n.natAbs % 100 < 10 then "0" else "") ++ toString (n.natAbs % 100)

/-- Python's `{v:.2f}` modelled on `ℝ` (round to the nearest hundredth). -/
noncomputable def fmt2R (v : ℝ) : String := fmt2Int (round (v * 100))

/-- Python's `{q:.1f}` modelled on `ℚ`. -/
def fmt1Q (q : ℚ) : String :=
  let n := round (q * 10)
  (if n < 0 then "-" else "") ++ toString (n.natAbs / 10) ++ "." ++
    toString (n.natAbs % 10)

/-- Python's `{v:.0f}` modelled on `ℝ`. -/
noncomputable def fmt0R (v : ℝ) : String := toString (round v)

/-- Model of `MouseAnalyzer._check_perfect_line`. -/
noncomputable def check_perfect_line (events : List Event) : Except String RuleResult :=
  let points := events.filterMap pointOf
  if points.length < 10 then .ok (mkMouseRes false "" 0)
  else do
    let v ← calculate_angle_variance points
    if v < 5 then
      .ok (mkMouseRes true ("Perfect line movement (variance: " ++ fmt2R v ++ "°)") 0.9)
    else .ok (mkMouseRes false "" 0)

/-- One comparison `v < self.thresholds['teleport_velocity']`; a `null`
velocity raises `TypeError`. -/
def velBelow (v : Option ℚ) : Except String Bool :=
  match v with
  | none => .error "TypeError"
  | some q => .ok (q < (0.1 : ℚ))

/-- Python's `sum(1 for v in velocities if v < threshold)`: counts in scan order,
raising at the first `null` velocity. -/
def countBelow : List (Option ℚ) → Except String ℕ
  | [] => .ok 0
  | v :: rest => do
      let b ← velBelow v
      let n ← countBelow rest
      .ok (if b then n + 1 else n)

/-- Model of `MouseAnalyzer._check_teleporting`. -/
def check_teleporting (events : List Event) : Except String RuleResult :=
  let velocities := events.filterMap (·.velocity)
  if velocities.isEmpty then .ok (mkMouseRes false "" 0)
  else do
    let zero_count ← countBelow velocities
    let zero_ratio : ℚ := (zero_count : ℚ) / (velocities.length : ℚ)
    if zero_ratio > 1 / 2 then
      .ok (mkMouseRes true
        ("Teleporting cursor (" ++ fmt1Q (zero_ratio * 100) ++ "% zero velocity)") 0.85)
    else .ok (mkMouseRes false "" 0)

/-- Loop of `MouseAnalyzer._check_impossible_speed` over consecutive event
pairs; non-positive or ≥ 100 ms time deltas are skipped, the scan stops at
the first violation. -/
noncomputable def impossibleSpeedGo : List Event → Except String RuleResult
  | e1 :: e2 :: rest => do
      let t1 ← optSub (tsVal e2) (tsVal e1)
      if t1 ≥ 100 ∨ t1 ≤ 0 then impossibleSpeedGo (e2 :: rest)
      else do
        let dx ← optSub (xVal e2) (xVal e1)
        let dy ← optSub (yVal e2) (yVal e1)
        let distance := Real.sqrt (((dx ^ 2 + dy ^ 2 : ℤ) : ℝ))
        if distance > 3000 then
          .ok (mkMouseRes true
            ("Impossible speed: " ++ fmt0R distance ++ "px in " ++ toString t1 ++ "ms") 0.95)
        else impossibleSpeedGo (e2 :: rest)
  | _ => .ok (mkMouseRes false "" 0)

/-- Model of `MouseAnalyzer._check_impossible_speed`. -/
noncomputable def check_impossible_speed (events : List Event) : Except String RuleResult :=
  impossibleSpeedGo events

/-- The priority chain of checks 3–5 of `MouseAnalyzer.analyze`: perfect
line, then teleporting, then impossible speed, returning the first triggered
result, else the non-triggered value. -/
noncomputable def mouseChecksPriority (events : List Event) : Except String RuleResult := do
  let line_result ← check_perfect_line events
  if line_result.is_bot then .ok line_result
  else do
    let teleport_result ← check_teleporting events
    if teleport_result.is_bot then .ok teleport_result
    else do
      let speed_result ← check_impossible_speed events
      if speed_result.is_bot then .ok speed_result
      else .ok (mkMouseRes false "" 0)

/-- Model of `MouseAnalyzer.analyze` applied to the fetched event list. -/
noncomputable def mouseAnalyzeEvents (events : List Event) : Except String RuleResult :=
  if events.isEmpty then .ok (mkMouseRes true "No mouse movements" 0.9)
  else if events.length < 5 then
    .ok (mkMouseRes true ("Only " ++ toString events.length ++ " movements") 0.8)
  else mouseChecksPriority events

/-- Model of `MouseAnalyzer.analyze`: fetch the session's `mousemove` events and run
the checks in priority order. -/
noncomputable def MouseAnalyzer.analyze (file : List (Option Event)) (sid : String) :
    Except String RuleResult :=
  mouseAnalyzeEvents (get_session_events file sid (some "mousemove"))

/-! ## Detection engine (`detectors/rule_engine.py`, `analyze_session`) -/

/-- The stable descending insertion of `flags.sort(key=confidence,
reverse=True)`: an element is placed before the first element whose
confidence is not larger. -/
def insertDesc (x : RuleResult) : List RuleResult → List RuleResult
  | [] => [x]
  | y :: ys => if y.confidence ≤ x.confidence then x :: y :: ys else y :: insertDesc x ys

/-- Stable sort by confidence descending (Python's `list.sort` is stable,
and `reverse=True` keeps equal elements in their original order). -/
def sortFlagsDesc (l : List RuleResult) : List RuleResult :=
  l.foldr insertDesc []

/-- Running `max(...)` over the remaining confidences, seeded with the first. -/
def maxConfFold (c : ℚ) (fs : List RuleResult) : ℚ :=
  fs.foldl (fun a g => max a g.confidence) c

/-- The fingerprint lookup of step 4 of `analyze_session`: `next(...)` over
`read_all('sessions')` picks the first record with the given identifier;
when it carries a `fingerprint` key, the fingerprint analyzer runs on it. -/
def fingerprintFlagOf (sessionsFile : List (Option SessionRec)) (sid : String) :
    Option RuleResult :=
  ((read_all sessionsFile none).find? (fun s => decide (s.session_id = some sid))).bind
    (fun s => s.fingerprint.map FingerprintAnalyzer.analyze)

/-- The flag list of `analyze_session` before aggregation: each of the five
checks appends its result exactly when it triggered, in the fixed order
honeypot-form, honeypot-interaction, mouse, timing, fingerprint. -/
noncomputable def engineFlags (file : List (Option Event))
    (sessionsFile : List (Option SessionRec)) (sid : String) (login : LoginRequest) :
    Except String (List RuleResult) :=
  (MouseAnalyzer.analyze file sid).map (fun mouse_result =>
    (if (check_form login).is_bot then [check_form login] else []) ++
    (if (check_interactions file sid).is_bot then [check_interactions file sid] else []) ++
    (if mouse_result.is_bot then [mouse_result] else []) ++
    (if (check_submit_time login).is_bot then [check_submit_time login] else []) ++
    (match fingerprintFlagOf sessionsFile sid with
     | some fr => if fr.is_bot then [fr] else []
     | none => []))

/-- Model of `BotDetectionEngine.analyze_session`: run all five checks, collect the
triggered flags, and aggregate.  `is_bot` and the maximal confidence are
computed on the collected list, which is then sorted in place by confidence
descending (stable) before the primary reason is read off its head;
`now` stands for `int(datetime.now().timestamp() * 1000)`.  An uncaught
exception from a check propagates (there is no try/except in the source). -/
noncomputable def analyze_session (file : List (Option Event))
    (sessionsFile : List (Option SessionRec)) (sid : String) (login : LoginRequest)
    (now : ℤ) : Except String Verdict :=
  (engineFlags file sessionsFile sid login).map (fun flags =>
    let is_bot := decide (0 < flags.length)
    let max_confidence :=
      match flags with
      | [] => (0 : ℚ)
      | f :: fs => maxConfFold f.confidence fs
    let sorted := sortFlagsDesc flags
    let primary_reason :=
      match sorted with
      | [] => "Human behavior detected"
      | f :: _ => f.reason
    { is_bot := is_bot, confidence := max_confidence, flags := sorted,
      reason := primary_reason, timestamp := now })

/-! ## Concrete inputs used by witnesses and counterexamples -/

/-- A benign login: decoy fields blank, submission after 3000 ms. -/
def benignLogin : LoginRequest :=
  { username := "user1", password := "pass1", session_id := "s",
    time_to_submit := 3000, form_time := "t0",
    website := some "", email_confirm := some "", bot_field := some "",
    verify := some "" }

/-- A bot-like login: decoy field `website` filled, instant submission. -/
def botLogin : LoginRequest :=
  { username := "user1", password := "pass1", session_id := "s",
    time_to_submit := 0, form_time := "t0",
    website := some "http://x", email_confirm := some "", bot_field := some "",
    verify := some "" }

/-- A login whose only interesting attribute is its submission time. -/
def loginWithTime (t : ℤ) : LoginRequest :=
  { username := "u", password := "p", session_id := "s",
    time_to_submit := t, form_time := "ft",
    website := some "", email_confirm := some "", bot_field := some "",
    verify := some "" }

/-- A stored `mousemove` event with no optional payload. -/
def plainMouseEv : Event :=
  { session_id := some "s", event_type := some "mousemove",
    x := none, y := none, velocity := none, timestamp := none,
    is_honeypot := none }

/-- A stored `mousemove` event whose `x` and `y` keys hold JSON `null`. -/
def nullXYMouseEv : Event :=
  { session_id := some "s", event_type := some "mousemove",
    x := some none, y := some none, velocity := none, timestamp := none,
    is_honeypot := none }

/-- A stored `mousemove` event at integer coordinates `(i, i)`. -/
def diagMouseEv (i : ℤ) : Event :=
  { session_id := some "s", event_type := some "mousemove",
    x := some (some i), y := some (some i), velocity := none, timestamp := none,
    is_honeypot := none }

/-- An events file with five plain `mousemove` events: every check passes,
no flag triggers. -/
def file5 : List (Option Event) := List.replicate 5 (some plainMouseEv)

/-- An events file with ten `mousemove` events whose coordinates are JSON
`null`: the perfect-line check's angle arithmetic raises `TypeError`. -/
def badFile : List (Option Event) := List.replicate 10 (some nullXYMouseEv)

/-! ## Generic lemmas about the embedded operations -/

/-- With a non-truthy limit, `read_all` is the plain full scan: every parsed
record in append order. -/
theorem read_all_none {α : Type} (file : List (Option α)) :
    read_all file none = file.filterMap id := by
  show readAllAux none file 0 = file.filterMap id
  generalize 0 = k
  induction file generalizing k with
  | nil => simp [readAllAux]
  | cons line rest ih =>
      cases line with
      | none => simpa [readAllAux] using ih k
      | some r => simpa [readAllAux, limitReached] using ih (k + 1)

/-- Lemma: `insertDesc` inserts without losing or duplicating elements. -/
theorem insertDesc_perm (x : RuleResult) (l : List RuleResult) :
    (insertDesc x l).Perm (x :: l) := by
  induction l with
  | nil => simp [insertDesc]
  | cons y ys ih =>
      by_cases h : y.confidence ≤ x.confidence
      · simp [insertDesc, h]
      · simp only [insertDesc, if_neg h]
        exact (ih.cons y).trans (List.Perm.swap x y ys)

/-- The stable sort is a permutation of its input. -/
theorem sortFlagsDesc_perm (l : List RuleResult) : (sortFlagsDesc l).Perm l := by
  induction l with
  | nil => simp [sortFlagsDesc]
  | cons x xs ih =>
      show (insertDesc x (sortFlagsDesc xs)).Perm (x :: xs)
      exact (insertDesc_perm x (sortFlagsDesc xs)).trans (ih.cons x)

/-- Inserting preserves the descending-by-confidence ordering. -/
theorem insertDesc_sorted (x : RuleResult) (l : List RuleResult)
    (h : l.Pairwise (fun a b => b.confidence ≤ a.confidence)) :
    (insertDesc x l).Pairwise (fun a b => b.confidence ≤ a.confidence) := by
  induction l with
  | nil => simp [insertDesc]
  | cons y ys ih =>
      rcases List.pairwise_cons.mp h with ⟨hy, hys⟩
      by_cases hc : y.confidence ≤ x.confidence
      · rw [insertDesc, if_pos hc]
        refine List.pairwise_cons.mpr ⟨?_, h⟩
        intro b hb
        rcases List.mem_cons.mp hb with rfl | hb
        · exact hc
        · exact (hy b hb).trans hc
      · rw [insertDesc, if_neg hc]
        refine List.pairwise_cons.mpr ⟨?_, ih hys⟩
        intro b hb
        have hb' : b ∈ x :: ys := (insertDesc_perm x ys).mem_iff.mp hb
        rcases List.mem_cons.mp hb' with rfl | hbys
        · exact le_of_not_le hc
        · exact hy b hbys

/-- The sorted flag list is descending by confidence. -/
theorem sortFlagsDesc_sorted (l : List RuleResult) :
    (sortFlagsDesc l).Pairwise (fun a b => b.confidence ≤ a.confidence) := by
  induction l with
  | nil => simp [sortFlagsDesc]
  | cons x xs ih => exact insertDesc_sorted x (sortFlagsDesc xs) ih

/-- Stability of one insertion: the elements of any fixed confidence keep
their relative order, because an element is only ever moved past elements of
strictly larger confidence. -/
theorem insertDesc_filter (x : RuleResult) (l : List RuleResult) (c : ℚ) :
    (insertDesc x l).filter (fun f => decide (f.confidence = c)) =
      (x :: l).filter (fun f => decide (f.confidence = c)) := by
  induction l with
  | nil => rfl
  | cons y ys ih =>
      by_cases hc : y.confidence ≤ x.confidence
      · simp [insertDesc, hc]
      · have hyx : x.confidence < y.confidence := lt_of_not_le hc
        by_cases hx : x.confidence = c
        · have hy : ¬(y.confidence = c) := by
            intro h; exact absurd (hx ▸ h ▸ hyx) (lt_irrefl _)
          simp only [insertDesc, if_neg hc, List.filter]
          simp only [decide_eq_true_eq] at *
          simp [hx, hy, ih, List.filter]
        · by_cases hy : y.confidence = c
          · simp only [insertDesc, if_neg hc, List.filter]
            simp [hx, hy, ih, List.filter]
          · simp only [insertDesc, if_neg hc, List.filter]
            simp [hx, hy, ih, List.filter]

/-- Stability of the whole sort: for every confidence value, the sorted list
restricted to that confidence equals the input restricted to it, i.e. flags
of equal confidence retain the order in which the checks produced them. -/
theorem sortFlagsDesc_filter (l : List RuleResult) (c : ℚ) :
    (sortFlagsDesc l).filter (fun f => decide (f.confidence = c)) =
      l.filter (fun f => decide (f.confidence = c)) := by
  induction l with
  | nil => rfl
  | cons x xs ih =>
      calc (insertDesc x (sortFlagsDesc xs)).filter (fun f => decide (f.confidence = c))
          = (x :: sortFlagsDesc xs).filter (fun f => decide (f.confidence = c)) :=
            insertDesc_filter x (sortFlagsDesc xs) c
        _ = (x :: xs).filter (fun f => decide (f.confidence = c)) := by
            by_cases hx : x.confidence = c <;> simp [List.filter, hx, ih]

/-- The seed of the running maximum never exceeds the result. -/
theorem le_maxConfFold (c : ℚ) (fs : List RuleResult) : c ≤ maxConfFold c fs := by
  induction fs generalizing c with
  | nil => simp [maxConfFold]
  | cons g gs ih =>
      exact le_trans (le_max_left c g.confidence) (ih (max c g.confidence))

/-- Every scanned confidence is bounded by the running maximum. -/
theorem mem_le_maxConfFold (c : ℚ) (fs : List RuleResult) :
    ∀ g ∈ fs, g.confidence ≤ maxConfFold c fs := by
  induction fs generalizing c with
  | nil => intro g hg; cases hg
  | cons f fs ih =>
      intro g hg
      rcases List.mem_cons.mp hg with rfl | hg
      · exact le_trans (le_max_right c g.confidence) (le_maxConfFold _ fs)
      · exact ih (max c f.confidence) g hg

/-- The running maximum is attained: it is the seed or one of the scanned
confidences. -/
theorem maxConfFold_attained (c : ℚ) (fs : List RuleResult) :
    maxConfFold c fs = c ∨ ∃ g ∈ fs, maxConfFold c fs = g.confidence := by
  induction fs generalizing c with
  | nil => exact Or.inl rfl
  | cons f fs ih =>
      rcases ih (max c f.confidence) with h | ⟨g, hg, h⟩
      · rcases max_cases c f.confidence with ⟨hm, _⟩ | ⟨hm, _⟩
        · exact Or.inl (by simpa [maxConfFold, hm] using h)
        · exact Or.inr ⟨f, List.mem_cons_self f fs, by simpa [maxConfFold, hm] using h⟩
      · exact Or.inr ⟨g, List.mem_cons_of_mem f hg, h⟩

/-! ## Claim C9 -/

/-- A line scan that keeps the parsed records satisfying a guard is the
guard-filter of the full parsed scan. -/
theorem filterMap_bind_guard {α : Type} (p : α → Bool) (file : List (Option α)) :
    file.filterMap (fun line => line.bind (fun e => if p e then some e else none)) =
      (file.filterMap id).filter p := by
  induction file with
  | nil => rfl
  | cons line rest ih =>
      cases line with
      | none => simpa using ih
      | some e =>
          by_cases hp : p e <;> simp [List.filterMap_cons, List.filter_cons, hp, ih]

/-- C9: for every stored events collection, session identifier and optional
event type, `get_session_events` returns exactly the subsequence, in append
order, of the records a full scan (`read_all` of the events collection)
returns whose `session_id` equals the given identifier and, when an event
type is supplied, whose `event_type` equals it. -/
theorem claim_C9_session_events_filter (file : List (Option Event)) (sid : String)
    (et : Option String) :
    get_session_events file sid et =
      (read_all file none).filter (fun e =>
        decide (e.session_id = some sid) &&
          (match et with
           | none => true
           | some t => decide (e.event_type = some t))) := by
  rw [read_all_none]
  have hbody : (fun (line : Option Event) => line.bind (fun e =>
      if e.session_id = some sid then
        if et = none ∨ e.event_type = et then some e else none
      else none)) = (fun (line : Option Event) => line.bind (fun e =>
      if (decide (e.session_id = some sid) &&
          (match et with
           | none => true
           | some t => decide (e.event_type = some t)) : Bool)
      then some e else none)) := by
    funext line
    cases line with
    | none => rfl
    | some e =>
        by_cases h1 : e.session_id = some sid
        · cases et with
          | none => simp [h1]
          | some t => by_cases h2 : e.event_type = some t <;> simp [h1, h2]
        · cases et with
          | none => simp [h1]
          | some t => simp [h1]
  rw [get_session_events, hbody, filterMap_bind_guard]

/-! ## Claim C10 -/

/-- C10: a fingerprint dictionary lacking the `hardware_concurrency` key
(and whose user agent matches no headless or automation marker) is treated
as having 0 cores, which is below the minimum of 1, so the analyzer returns
a triggered result with rule `fingerprint_hardware` and confidence 0.9. -/
theorem claim_C10_missing_hardware (fp : Fingerprint)
    (hhc : fp.hardware_concurrency = none)
    (hua : ∀ p ∈ uaPatterns,
      strContainsSub (pyLower (fp.user_agent.getD "")) (pyLower p) = false) :
    FingerprintAnalyzer.analyze fp =
      { is_bot := true, reason := "Impossible hardware: 0 CPU cores",
        confidence := 0.9, rule := "fingerprint_hardware" } := by
  have hfind : uaPatterns.find?
      (fun p => strContainsSub (pyLower (fp.user_agent.getD "")) (pyLower p)) = none := by
    apply List.find?_eq_none.mpr
    intro p hp
    simp [hua p hp]
  simp only [FingerprintAnalyzer.analyze, hfind, hhc, Option.getD_none]
  rw [if_pos (by norm_num : (0 : ℤ) < 1)]
  rfl

/-- Witness for C10 at a concrete fingerprint with an ordinary user agent
and no `hardware_concurrency` key. -/
theorem claim_C10_witness :
    FingerprintAnalyzer.analyze
      { user_agent := some "Mozilla/5.0", hardware_concurrency := none,
        canvas_hash := some "abc" } =
      { is_bot := true, reason := "Impossible hardware: 0 CPU cores",
        confidence := 0.9, rule := "fingerprint_hardware" } :=
  claim_C10_missing_hardware _ rfl (by decide)

/-! ## Claim C7 -/

/-- C7: the submission timing check triggers exactly when the elapsed time
is below 2000 ms; when triggered its confidence is `1 − t/2000` rounded to
two decimal places, with `t = 0` giving exactly 1.0, `t = 1000` exactly 0.5,
and `t = 2000` not triggering. -/
theorem claim_C7_submit_time (l : LoginRequest) (h : 0 ≤ l.time_to_submit) :
    ((check_submit_time l).is_bot = true ↔ l.time_to_submit < 2000) ∧
    (l.time_to_submit < 2000 →
      (check_submit_time l).confidence =
        round2 (1 - (l.time_to_submit : ℚ) / 2000)) ∧
    (check_submit_time (loginWithTime 0)).confidence = 1 ∧
    (check_submit_time (loginWithTime 1000)).confidence = 1 / 2 ∧
    (check_submit_time (loginWithTime 2000)).is_bot = false := by
  refine ⟨?_, ?_, ?_, ?_, ?_⟩
  · by_cases ht : l.time_to_submit < 2000 <;>
      simp [check_submit_time, MIN_SUBMIT_TIME_MS, ht]
  · intro ht
    simp [check_submit_time, MIN_SUBMIT_TIME_MS, ht]
  · have h0 : (check_submit_time (loginWithTime 0)).confidence =
        round2 (1 - ((0 : ℤ) : ℚ) / 2000) := by
      simp [check_submit_time, MIN_SUBMIT_TIME_MS, loginWithTime]
    rw [h0, round2]
    norm_num [round_eq]
  · have h0 : (check_submit_time (loginWithTime 1000)).confidence =
        round2 (1 - ((1000 : ℤ) : ℚ) / 2000) := by
      simp [check_submit_time, MIN_SUBMIT_TIME_MS, loginWithTime]
    rw [h0, round2]
    norm_num [round_eq]
  · simp [check_submit_time, MIN_SUBMIT_TIME_MS, loginWithTime]

/-- Witness for C7 at `time_to_submit = 1000`. -/
theorem claim_C7_witness :
    ((check_submit_time (loginWithTime 1000)).is_bot = true ↔
        (loginWithTime 1000).time_to_submit < 2000) ∧
    ((loginWithTime 1000).time_to_submit < 2000 →
      (check_submit_time (loginWithTime 1000)).confidence =
        round2 (1 - ((loginWithTime 1000).time_to_submit : ℚ) / 2000)) ∧
    (check_submit_time (loginWithTime 0)).confidence = 1 ∧
    (check_submit_time (loginWithTime 1000)).confidence = 1 / 2 ∧
    (check_submit_time (loginWithTime 2000)).is_bot = false :=
  claim_C7_submit_time (loginWithTime 1000) (by norm_num [loginWithTime])

/-! ## Claim C8 -/

/-- Characterization of the form-check loop: it triggers exactly when some
scanned pair is filled, and a triggered result is the record built from the
first filled pair, while a clean run returns the fixed non-triggered
record. -/
theorem checkFormGo_spec (fvs : List (String × Option String)) :
    ((checkFormGo fvs).is_bot = fvs.any (fun fv => filledB fv.2)) ∧
    ((checkFormGo fvs).is_bot = true →
      ∃ f s, (f, some s) ∈ fvs ∧ filledB (some s) = true ∧
        checkFormGo fvs =
          { is_bot := true,
            reason := "Honeypot field '" ++ f ++ "' was filled",
            confidence := 1, rule := "honeypot_form",
            field := some f, value_length := some s.length }) ∧
    ((checkFormGo fvs).is_bot = false → checkFormGo fvs = hpFormClean) := by
  induction fvs with
  | nil =>
      refine ⟨rfl, ?_, fun _ => rfl⟩
      intro h
      exact absurd h (by decide)
  | cons fv rest ih =>
      obtain ⟨f, v⟩ := fv
      cases v with
      | none =>
          refine ⟨?_, ?_, ?_⟩
          · simpa [checkFormGo, filledB] using ih.1
          · intro h
            obtain ⟨g, s, hmem, hfill, heq⟩ := ih.2.1 (by simpa [checkFormGo] using h)
            exact ⟨g, s, List.mem_cons_of_mem _ hmem, hfill, by simpa [checkFormGo] using heq⟩
          · intro h
            simpa [checkFormGo] using ih.2.2 (by simpa [checkFormGo] using h)
      | some s =>
          cases hfill : (!(s == "") && !(pyStrip s == "")) with
          | true =>
              refine ⟨?_, ?_, ?_⟩
              · simp [checkFormGo, hfill, filledB]
              · intro _
                exact ⟨f, s, List.mem_cons_self _ _, by simp [filledB, hfill],
                  by simp [checkFormGo, hfill]⟩
              · intro h
                simp [checkFormGo, hfill] at h
          | false =>
              refine ⟨?_, ?_, ?_⟩
              · simpa [checkFormGo, hfill, filledB] using ih.1
              · intro h
                obtain ⟨g, s', hmem, hfill', heq⟩ :=
                  ih.2.1 (by simpa [checkFormGo, hfill] using h)
                exact ⟨g, s', List.mem_cons_of_mem _ hmem, hfill',
                  by simpa [checkFormGo, hfill] using heq⟩
              · intro h
                simpa [checkFormGo, hfill] using
                  ih.2.2 (by simpa [checkFormGo, hfill] using h)

/-- Refutation of C8 as stated: with `website="http://x"` the check triggers
with confidence 1.0 and a reason naming the field, but the reason string
does not contain the filled value's length (8): the length is carried in
the separate `value_length` attribute instead. -/
theorem claim_C8_counterexample :
    botLogin.website = some "http://x" ∧
    ("http://x").length = 8 ∧
    (check_form botLogin).is_bot = true ∧
    (check_form botLogin).confidence = 1 ∧
    (check_form botLogin).reason = "Honeypot field 'website' was filled" ∧
    strContainsSub (check_form botLogin).reason (toString (8 : ℕ)) = false ∧
    (check_form botLogin).value_length = some 8 := by
  refine ⟨rfl, rfl, ?_, ?_, ?_, ?_, ?_⟩ <;> decide

/-- C8 (amended): the honeypot form-field check triggers iff at least one of
the decoy fields `website`, `email_confirm`, `bot_field`, `verify` holds a
value that is non-blank after trimming; when triggered the confidence is 1.0
and the reason names the (first) filled field — but not the value's content
or its length; the length is reported in the flag's `value_length`
attribute. -/
theorem claim_C8_amended (l : LoginRequest) :
    ((check_form l).is_bot =
      (filledB l.website || filledB l.email_confirm ||
        filledB l.bot_field || filledB l.verify)) ∧
    ((check_form l).is_bot = true →
      (check_form l).confidence = 1 ∧
      ∃ f s, (f, some s) ∈ honeypotFieldVals l ∧ f ∈ honeypot_fields ∧
        filledB (some s) = true ∧
        (check_form l).field = some f ∧
        (check_form l).value_length = some s.length ∧
        (check_form l).reason = "Honeypot field '" ++ f ++ "' was filled") := by
  have hspec := checkFormGo_spec (honeypotFieldVals l)
  constructor
  · calc (check_form l).is_bot
        = (honeypotFieldVals l).any (fun fv => filledB fv.2) := hspec.1
      _ = _ := by simp [honeypotFieldVals, Bool.or_assoc]
  · intro h
    obtain ⟨f, s, hmem, hfill, heq⟩ := hspec.2.1 h
    have hfmem : f ∈ honeypot_fields := by
      have : f ∈ (honeypotFieldVals l).map Prod.fst := by
        exact List.mem_map.mpr ⟨(f, some s), hmem, rfl⟩
      simpa [honeypotFieldVals, honeypot_fields] using this
    refine ⟨by rw [check_form, heq], f, s, hmem, hfmem, hfill, ?_, ?_, ?_⟩ <;>
      rw [check_form, heq]

/-- Witness for C8 (amended) at the concrete bot-like login. -/
theorem claim_C8_witness :
    ((check_form botLogin).is_bot =
      (filledB botLogin.website || filledB botLogin.email_confirm ||
        filledB botLogin.bot_field || filledB botLogin.verify)) ∧
    ((check_form botLogin).is_bot = true →
      (check_form botLogin).confidence = 1 ∧
      ∃ f s, (f, some s) ∈ honeypotFieldVals botLogin ∧ f ∈ honeypot_fields ∧
        filledB (some s) = true ∧
        (check_form botLogin).field = some f ∧
        (check_form botLogin).value_length = some s.length ∧
        (check_form botLogin).reason = "Honeypot field '" ++ f ++ "' was filled") :=
  claim_C8_amended botLogin

/-! ## Claim C4 -/

/-- Propagation of an error through one monadic bind of the embedding. -/
theorem exceptErrorBind {α β : Type} (e : String) (f : α → Except String β) :
    (Except.error e >>= f) = Except.error e := rfl

/-- Evaluation of one successful monadic bind of the embedding. -/
theorem exceptOkBind {α β : Type} (a : α) (f : α → Except String β) :
    (Except.ok a >>= f) = f a := rfl

/-- Any non-triggered outcome of the priority chain of mouse checks 3–5 is
the fixed clean result. -/
theorem mouseChecksPriority_clean (es : List Event) (r : RuleResult)
    (h : mouseChecksPriority es = .ok r) (hbot : r.is_bot = false) :
    r = mkMouseRes false "" 0 := by
  rw [mouseChecksPriority] at h
  cases hpl : check_perfect_line es with
  | error e => rw [hpl, exceptErrorBind] at h; cases h
  | ok pl =>
      rw [hpl, exceptOkBind] at h
      by_cases hb : pl.is_bot
      · rw [if_pos hb] at h
        cases h
        exact absurd hbot (by simp [hb])
      · rw [if_neg hb] at h
        cases htp : check_teleporting es with
        | error e => rw [htp, exceptErrorBind] at h; cases h
        | ok tp =>
            rw [htp, exceptOkBind] at h
            by_cases hb2 : tp.is_bot
            · rw [if_pos hb2] at h
              cases h
              exact absurd hbot (by simp [hb2])
            · rw [if_neg hb2] at h
              cases hsp : check_impossible_speed es with
              | error e => rw [hsp, exceptErrorBind] at h; cases h
              | ok sp =>
                  rw [hsp, exceptOkBind] at h
                  by_cases hb3 : sp.is_bot
                  · rw [if_pos hb3] at h
                    cases h
                    exact absurd hbot (by simp [hb3])
                  · rw [if_neg hb3] at h
                    cases h
                    rfl

/-- Any non-triggered outcome of the whole mouse analysis is the fixed clean
result (the two early branches always trigger). -/
theorem mouseAnalyzeEvents_clean (es : List Event) (r : RuleResult)
    (h : mouseAnalyzeEvents es = .ok r) (hbot : r.is_bot = false) :
    r = mkMouseRes false "" 0 := by
  rw [mouseAnalyzeEvents] at h
  by_cases he : es.isEmpty
  · rw [if_pos he] at h
    cases h
    exact absurd hbot (by simp [mkMouseRes])
  · rw [if_neg he] at h
    by_cases hlen : es.length < 5
    · rw [if_pos hlen] at h
      cases h
      exact absurd hbot (by simp [mkMouseRes])
    · rw [if_neg hlen] at h
      exact mouseChecksPriority_clean es r h hbot

/-- Case split on the fingerprint analyzer: either the result is triggered
or it is the fixed clean record. -/
theorem fingerprint_cases (fp : Fingerprint) :
    (FingerprintAnalyzer.analyze fp).is_bot = true ∨
      FingerprintAnalyzer.analyze fp =
        { is_bot := false, reason := "", confidence := 0, rule := "fingerprint" } := by
  rw [FingerprintAnalyzer.analyze]
  cases hfind : uaPatterns.find?
      (fun p => strContainsSub (pyLower (fp.user_agent.getD "")) (pyLower p)) with
  | some p => left; rfl
  | none =>
      by_cases hc : fp.hardware_concurrency.getD 0 < 1
      · rw [if_pos hc]; left; rfl
      · rw [if_neg hc]
        by_cases hcv : fp.canvas_hash.getD "" = "canvas_unavailable"
        · rw [if_pos hcv]; left; rfl
        · rw [if_neg hcv]; right; rfl

/-- Refutation of C4 as stated: the timing check at the threshold does not
trigger and carries confidence 0.0, but its reason string is the non-empty
"Normal submission time" rather than the empty string. -/
theorem claim_C4_counterexample :
    (check_submit_time (loginWithTime 2000)).is_bot = false ∧
    (check_submit_time (loginWithTime 2000)).confidence = 0 ∧
    (check_submit_time (loginWithTime 2000)).reason = "Normal submission time" ∧
    ¬((check_submit_time (loginWithTime 2000)).reason = "") := by
  refine ⟨?_, ?_, ?_, ?_⟩ <;> decide

/-- C4 (amended): every non-triggered rule check carries confidence 0.0;
the reason string is empty for the honeypot form, honeypot interaction,
mouse and fingerprint checks, while the non-triggered timing check carries
the fixed reason "Normal submission time". -/
theorem claim_C4_amended :
    (∀ l : LoginRequest, (check_form l).is_bot = false →
        (check_form l).confidence = 0 ∧ (check_form l).reason = "") ∧
    (∀ (file : List (Option Event)) (sid : String),
        (check_interactions file sid).is_bot = false →
        (check_interactions file sid).confidence = 0 ∧
          (check_interactions file sid).reason = "") ∧
    (∀ (es : List Event) (r : RuleResult),
        mouseAnalyzeEvents es = .ok r → r.is_bot = false →
        r.confidence = 0 ∧ r.reason = "") ∧
    (∀ fp : Fingerprint, (FingerprintAnalyzer.analyze fp).is_bot = false →
        (FingerprintAnalyzer.analyze fp).confidence = 0 ∧
          (FingerprintAnalyzer.analyze fp).reason = "") ∧
    (∀ l : LoginRequest, (check_submit_time l).is_bot = false →
        (check_submit_time l).confidence = 0 ∧
          (check_submit_time l).reason = "Normal submission time") := by
  refine ⟨?_, ?_, ?_, ?_, ?_⟩
  · intro l h
    have := (checkFormGo_spec (honeypotFieldVals l)).2.2 h
    rw [check_form] at *
    rw [this]
    exact ⟨rfl, rfl⟩
  · intro file sid h
    simp only [check_interactions] at h ⊢
    cases hf : (get_session_events file sid none).filter isHoneypotEvent with
    | nil => exact ⟨rfl, rfl⟩
    | cons e rest =>
        rw [hf] at h
        exact absurd h (by simp)
  · intro es r h hbot
    rw [mouseAnalyzeEvents_clean es r h hbot]
    exact ⟨rfl, rfl⟩
  · intro fp h
    rcases fingerprint_cases fp with hb | hclean
    · exact absurd h (by simp [hb])
    · rw [hclean]
      exact ⟨rfl, rfl⟩
  · intro l h
    rw [check_submit_time] at *
    by_cases ht : l.time_to_submit < MIN_SUBMIT_TIME_MS
    · rw [if_pos ht] at h
      exact absurd h (by simp)
    · rw [if_neg ht]
      exact ⟨rfl, rfl⟩

/-- A clean fingerprint triggering nothing. -/
def cleanFp : Fingerprint :=
  { user_agent := some "Mozilla/5.0", hardware_concurrency := some 8,
    canvas_hash := some "abc" }

/-- Evaluation of the mouse analysis on five plain events: nothing
triggers. -/
theorem mouse5_eval :
    mouseAnalyzeEvents (List.replicate 5 plainMouseEv) = .ok (mkMouseRes false "" 0) := rfl

/-- Witness for C4 (amended) at concrete non-triggering inputs for each of
the five checks. -/
theorem claim_C4_witness :
    ((check_form benignLogin).confidence = 0 ∧ (check_form benignLogin).reason = "") ∧
    ((check_interactions file5 "s").confidence = 0 ∧
      (check_interactions file5 "s").reason = "") ∧
    ((mkMouseRes false "" 0).confidence = 0 ∧ (mkMouseRes false "" 0).reason = "") ∧
    ((FingerprintAnalyzer.analyze cleanFp).confidence = 0 ∧
      (FingerprintAnalyzer.analyze cleanFp).reason = "") ∧
    ((check_submit_time benignLogin).confidence = 0 ∧
      (check_submit_time benignLogin).reason = "Normal submission time") :=
  ⟨claim_C4_amended.1 benignLogin (by decide),
   claim_C4_amended.2.1 file5 "s" (by decide),
   claim_C4_amended.2.2.1 (List.replicate 5 plainMouseEv) (mkMouseRes false "" 0)
     mouse5_eval rfl,
   claim_C4_amended.2.2.2.1 cleanFp (by decide),
   claim_C4_amended.2.2.2.2 benignLogin (by decide)⟩

/-! ## Claim C5 -/

/-- Refutation of C5 as stated: with zero pointer-move events the mouse
analysis triggers with confidence 0.9, but the reason string is
"No mouse movements" (capital N), not "no mouse movements". -/
theorem claim_C5_counterexample :
    MouseAnalyzer.analyze [] "s" = .ok (mkMouseRes true "No mouse movements" 0.9) ∧
    ¬((mkMouseRes true "No mouse movements" 0.9).reason = "no mouse movements") :=
  ⟨rfl, by decide⟩

/-- C5 (amended): the mouse analyzer fetches the session's `mousemove`
events and runs its checks in fixed priority order, returning the first
triggered result, so at most one mouse flag is produced: zero events yield
a triggered result with confidence 0.9 and reason "No mouse movements"
(capital N), fewer than 5 events yield confidence 0.8, otherwise the
priority chain perfect-line → teleportation → impossible-speed decides, and
when no check triggers the result is not-bot with confidence 0.0. -/
theorem claim_C5_amended (file : List (Option Event)) (sid : String)
    (es : List Event) :
    MouseAnalyzer.analyze file sid =
      mouseAnalyzeEvents (get_session_events file sid (some "mousemove")) ∧
    (es = [] →
      mouseAnalyzeEvents es = .ok (mkMouseRes true "No mouse movements" 0.9)) ∧
    (es ≠ [] → es.length < 5 →
      mouseAnalyzeEvents es =
        .ok (mkMouseRes true ("Only " ++ toString es.length ++ " movements") 0.8)) ∧
    (5 ≤ es.length → mouseAnalyzeEvents es = mouseChecksPriority es) ∧
    (∀ r, mouseAnalyzeEvents es = .ok r → r.is_bot = false →
      r = mkMouseRes false "" 0) := by
  refine ⟨rfl, ?_, ?_, ?_, ?_⟩
  · intro he
    subst he
    rfl
  · intro hne hlen
    rw [mouseAnalyzeEvents, if_neg (by simpa [List.isEmpty_iff] using hne), if_pos hlen]
  · intro hlen
    have hne : ¬es.isEmpty := by
      cases es with
      | nil => simp at hlen
      | cons e rest => simp
    rw [mouseAnalyzeEvents, if_neg hne, if_neg (by omega)]
  · exact mouseAnalyzeEvents_clean es

/-- Witness for C5 (amended) at the empty, a one-event, and a five-event
session history. -/
theorem claim_C5_witness :
    mouseAnalyzeEvents [] = .ok (mkMouseRes true "No mouse movements" 0.9) ∧
    mouseAnalyzeEvents [plainMouseEv] =
      .ok (mkMouseRes true
        ("Only " ++ toString ([plainMouseEv] : List Event).length ++ " movements") 0.8) ∧
    mouseAnalyzeEvents (List.replicate 5 plainMouseEv) =
      mouseChecksPriority (List.replicate 5 plainMouseEv) :=
  ⟨(claim_C5_amended [] "s" []).2.1 rfl,
   (claim_C5_amended [] "s" [plainMouseEv]).2.2.1 (by simp) (by simp),
   (claim_C5_amended [] "s" (List.replicate 5 plainMouseEv)).2.2.2.1 (by simp)⟩

/-! ## Claim C6 -/

/-- Restricting a list to the elements an optional extraction accepts does
not change the extraction's output. -/
theorem filterMap_eq_filterMap_filter {α β : Type} (f : α → Option β) (l : List α) :
    (l.filter (fun a => (f a).isSome)).filterMap f = l.filterMap f := by
  induction l with
  | nil => rfl
  | cons a rest ih =>
      cases hf : f a with
      | none => simp [List.filter_cons, hf, List.filterMap_cons, ih]
      | some b => simp [List.filter_cons, hf, List.filterMap_cons, ih]

/-- Sample standard deviation of a constant list is zero. -/
theorem sampleStdDev_replicate (n : ℕ) (a : ℝ) (hn : n ≠ 0) :
    sampleStdDev (List.replicate n a) = 0 := by
  have hn' : (n : ℝ) ≠ 0 := Nat.cast_ne_zero.mpr hn
  rw [sampleStdDev]
  simp only [List.length_replicate, List.sum_replicate, nsmul_eq_mul, List.map_replicate]
  rw [mul_div_cancel_left₀ a hn']
  simp

/-- C6: the perfect-line check considers only events carrying both `x` and
`y`, does not trigger for fewer than 10 such points, computes the sample
standard deviation of the consecutive-segment angles in degrees (sentinel
100.0 for fewer than 3 points), and triggers with confidence 0.9 and a
reason quoting the measured variance to two decimal places exactly when the
variance is below the threshold 5.0. -/
theorem claim_C6_perfect_line (events : List Event)
    (pts : List (Option ℤ × Option ℤ)) (v : ℝ) (r : RuleResult) :
    (check_perfect_line events =
      check_perfect_line (events.filter (fun e => (pointOf e).isSome))) ∧
    ((events.filterMap pointOf).length < 10 →
      check_perfect_line events = .ok (mkMouseRes false "" 0)) ∧
    (pts.length < 3 → calculate_angle_variance pts = .ok 100) ∧
    (3 ≤ pts.length → ∀ angs, anglesOf pts = .ok angs → 2 ≤ angs.length →
      calculate_angle_variance pts = .ok (sampleStdDev angs)) ∧
    (10 ≤ (events.filterMap pointOf).length →
      calculate_angle_variance (events.filterMap pointOf) = .ok v →
      ((check_perfect_line events = .ok r → (r.is_bot = true ↔ v < 5)) ∧
       (v < 5 → check_perfect_line events =
          .ok (mkMouseRes true
            ("Perfect line movement (variance: " ++ fmt2R v ++ "°)") 0.9)))) := by
  refine ⟨?_, ?_, ?_, ?_, ?_⟩
  · simp only [check_perfect_line]
    rw [filterMap_eq_filterMap_filter]
  · intro hlen
    simp only [check_perfect_line]
    rw [if_pos hlen]
  · intro hlen
    rw [calculate_angle_variance, if_pos hlen]
  · intro hlen angs hangs hlen2
    rw [calculate_angle_variance, if_neg (by omega), hangs, exceptOkBind,
      if_neg (by omega)]
  · intro hlen hvar
    have hform : check_perfect_line events =
        (if v < 5 then
          .ok (mkMouseRes true
            ("Perfect line movement (variance: " ++ fmt2R v ++ "°)") 0.9)
        else .ok (mkMouseRes false "" 0)) := by
      simp only [check_perfect_line]
      rw [if_neg (by omega), hvar, exceptOkBind]
    constructor
    · intro hr
      rw [hform] at hr
      by_cases hv : v < 5
      · rw [if_pos hv] at hr
        cases hr
        simpa [mkMouseRes] using hv
      · rw [if_neg hv] at hr
        cases hr
        simp [mkMouseRes, hv]
    · intro hv
      rw [hform, if_pos hv]

/-- The ten collinear stored events used as the perfect-line witness. -/
def diagEvents : List Event :=
  (List.range 10).map (fun i => diagMouseEv (i : ℤ))

/-- Evaluation of the angle-variance on the ten collinear points: all
consecutive segments have the same 45° angle, so the sample standard
deviation is zero. -/
theorem diag_variance :
    calculate_angle_variance (diagEvents.filterMap pointOf) = .ok 0 := by
  have h1 : anglesOf (diagEvents.filterMap pointOf) =
      .ok (List.replicate 9 (degAngle 1 1)) := rfl
  have h2 : calculate_angle_variance (diagEvents.filterMap pointOf) =
      .ok (sampleStdDev (List.replicate 9 (degAngle 1 1))) := by
    rw [calculate_angle_variance,
      if_neg (by decide : ¬((diagEvents.filterMap pointOf).length < 3)), h1,
      exceptOkBind, if_neg (by simp)]
  rw [h2, sampleStdDev_replicate 9 _ (by norm_num)]

/-- Witness for C6: ten collinear points give measured variance 0, which is
rendered "0.00" and is below the threshold, so the check triggers with
confidence 0.9; the degenerate-input sentinel is also exercised. -/
theorem claim_C6_witness :
    (10 : ℕ) ≤ (diagEvents.filterMap pointOf).length ∧
    calculate_angle_variance (diagEvents.filterMap pointOf) = .ok 0 ∧
    check_perfect_line diagEvents =
      .ok (mkMouseRes true
        ("Perfect line movement (variance: " ++ fmt2R 0 ++ "°)") 0.9) ∧
    fmt2R 0 = "0.00" ∧
    calculate_angle_variance [] = .ok 100 := by
  refine ⟨by decide, diag_variance, ?_, ?_, ?_⟩
  · exact ((claim_C6_perfect_line diagEvents [] 0 (mkMouseRes false "" 0)).2.2.2.2
      (by decide) diag_variance).2 (by norm_num)
  · rw [fmt2R, zero_mul, round_zero]
    rfl
  · exact (claim_C6_perfect_line [] [] 0 (mkMouseRes false "" 0)).2.2.1 (by decide)

/-! ## Claim C3 -/

/-- C3 (violated by the code): with ten stored `mousemove` events whose
`x` and `y` hold JSON `null`, the perfect-line angle arithmetic raises
`TypeError`; `analyze_session` has no exception handling, so the whole
analysis aborts with the error instead of completing with the mouse check
treated as not triggered. -/
theorem claim_C3_exception_aborts :
    analyze_session badFile [] "s" benignLogin 0 = .error "TypeError" := rfl

/-! ## Claims C1 and C2 -/

/-- An element of a conditionally-included singleton is triggered. -/
theorem mem_triggered_piece {x f : RuleResult}
    (h : f ∈ (if x.is_bot then [x] else ([] : List RuleResult))) : f.is_bot = true := by
  by_cases hb : x.is_bot
  · rw [if_pos hb] at h
    rw [List.mem_singleton.mp h]
    exact hb
  · rw [if_neg hb] at h
    cases h

/-- Every flag the engine collects comes from a check that triggered. -/
theorem engineFlags_triggered (file : List (Option Event))
    (sessionsFile : List (Option SessionRec)) (sid : String) (login : LoginRequest)
    (fs : List RuleResult) (h : engineFlags file sessionsFile sid login = .ok fs) :
    ∀ f ∈ fs, f.is_bot = true := by
  rw [engineFlags] at h
  cases hm : MouseAnalyzer.analyze file sid with
  | error e => rw [hm] at h; cases h
  | ok mr =>
      rw [hm] at h
      simp only [Except.map] at h
      cases h
      intro f hf
      rcases List.mem_append.mp hf with hf | hf5
      rcases List.mem_append.mp hf with hf | hf4
      rcases List.mem_append.mp hf with hf | hf3
      rcases List.mem_append.mp hf with hf1 | hf2
      · exact mem_triggered_piece hf1
      · exact mem_triggered_piece hf2
      · exact mem_triggered_piece hf3
      · exact mem_triggered_piece hf4
      · cases hfp : fingerprintFlagOf sessionsFile sid with
        | none => rw [hfp] at hf5; cases hf5
        | some fr => rw [hfp] at hf5; exact mem_triggered_piece hf5

/-- C1: a successful analysis is a bot verdict exactly when some flag
triggered, and its confidence is the maximum confidence among the triggered
flags, or 0.0 when none triggered. -/
theorem claim_C1_verdict_aggregation (file : List (Option Event))
    (sessionsFile : List (Option SessionRec)) (sid : String) (login : LoginRequest)
    (now : ℤ) (v : Verdict)
    (h : analyze_session file sessionsFile sid login now = .ok v) :
    (v.is_bot = true ↔ v.flags ≠ []) ∧
    (v.flags = [] → v.confidence = 0) ∧
    (∀ f ∈ v.flags, f.confidence ≤ v.confidence) ∧
    (v.flags ≠ [] → ∃ f ∈ v.flags, v.confidence = f.confidence) := by
  rw [analyze_session] at h
  cases hm : engineFlags file sessionsFile sid login with
  | error e => rw [hm] at h; cases h
  | ok flags =>
      rw [hm] at h
      simp only [Except.map] at h
      cases h
      dsimp only
      have hperm := sortFlagsDesc_perm flags
      refine ⟨?_, ?_, ?_, ?_⟩
      · simp only [decide_eq_true_eq]
        constructor
        · intro hpos hnil
          have hfl : flags = [] := (List.Perm.nil_eq (hnil ▸ hperm)).symm
          rw [hfl] at hpos
          simp at hpos
        · intro hne
          cases flags with
          | nil => exact absurd (show sortFlagsDesc [] = [] from rfl) hne
          | cons f fs => simp
      · intro hnil
        have hfl : flags = [] := (List.Perm.nil_eq (hnil ▸ hperm)).symm
        rw [hfl]
      · intro f hf
        have hfm : f ∈ flags := hperm.mem_iff.mp hf
        cases flags with
        | nil => cases hfm
        | cons g gs =>
            rcases List.mem_cons.mp hfm with rfl | hgs
            · exact le_maxConfFold _ gs
            · exact mem_le_maxConfFold _ gs f hgs
      · intro hne
        cases flags with
        | nil => exact absurd (show sortFlagsDesc [] = [] from rfl) hne
        | cons g gs =>
            rcases maxConfFold_attained g.confidence gs with hg | ⟨f, hfm, hf⟩
            · exact ⟨g, hperm.mem_iff.mpr (List.mem_cons_self g gs), hg⟩
            · exact ⟨f, hperm.mem_iff.mpr (List.mem_cons_of_mem g hfm), hf⟩

/-- C2 (amended): a successful verdict's flag list is the stable descending
sort of exactly the triggered flags, collected in the fixed check order
(honeypot-form, honeypot-interaction, mouse, timing, fingerprint); it is
sorted by confidence descending, flags of equal confidence retain the
production order, and the primary reason is the first sorted flag's reason,
or the fixed sentinel "Human behavior detected" (capital H) when no flag
triggered. -/
theorem claim_C2_flag_order (file : List (Option Event))
    (sessionsFile : List (Option SessionRec)) (sid : String) (login : LoginRequest)
    (now : ℤ) (v : Verdict)
    (h : analyze_session file sessionsFile sid login now = .ok v) :
    ∃ fs, engineFlags file sessionsFile sid login = .ok fs ∧
      (∀ f ∈ fs, f.is_bot = true) ∧
      v.flags = sortFlagsDesc fs ∧
      v.flags.Pairwise (fun a b => b.confidence ≤ a.confidence) ∧
      (∀ c : ℚ, v.flags.filter (fun f => decide (f.confidence = c)) =
        fs.filter (fun f => decide (f.confidence = c))) ∧
      v.reason = (match v.flags with
        | [] => "Human behavior detected"
        | f :: _ => f.reason) := by
  rw [analyze_session] at h
  cases hm : engineFlags file sessionsFile sid login with
  | error e => rw [hm] at h; cases h
  | ok flags =>
      rw [hm] at h
      simp only [Except.map] at h
      cases h
      dsimp only
      exact ⟨flags, rfl, engineFlags_triggered file sessionsFile sid login flags hm,
        rfl, sortFlagsDesc_sorted flags, fun c => sortFlagsDesc_filter flags c, rfl⟩

/-- Refutation of C2 as stated: a run in which no check triggers yields the
primary reason "Human behavior detected" (capital H), which differs from
the sentinel "human behavior detected" quoted by the claim. -/
theorem claim_C2_counterexample :
    analyze_session file5 [] "s" benignLogin 0 =
      .ok { is_bot := false, confidence := 0, flags := [],
            reason := "Human behavior detected", timestamp := 0 } ∧
    ¬("Human behavior detected" = "human behavior detected") :=
  ⟨rfl, by decide⟩

/-- The honeypot form flag produced by the bot-like login. -/
def formFlag : RuleResult :=
  { is_bot := true, reason := "Honeypot field 'website' was filled",
    confidence := 1, rule := "honeypot_form",
    field := some "website", value_length := some 8 }

/-- The timing flag produced by the bot-like login (0 ms submission). -/
def timeFlag : RuleResult :=
  { is_bot := true, reason := "Form submitted too quickly: 0ms (Threshold: 2000ms)",
    confidence := 1, rule := "submit_time" }

/-- The mouse flag produced by an empty event history. -/
def mouseFlag : RuleResult := mkMouseRes true "No mouse movements" 0.9

/-- The verdict of the bot-like run used by the engine witnesses. -/
def botVerdict : Verdict :=
  { is_bot := true, confidence := 1, flags := [formFlag, timeFlag, mouseFlag],
    reason := "Honeypot field 'website' was filled", timestamp := 0 }

/-- Evaluation of the form check on the bot-like login. -/
theorem check_form_bot : check_form botLogin = formFlag := by decide

/-- Evaluation of the timing check on the bot-like login. -/
theorem check_time_bot : check_submit_time botLogin = timeFlag := by
  simp only [check_submit_time, botLogin, MIN_SUBMIT_TIME_MS]
  rw [if_pos (by norm_num : (0 : ℤ) < 2000)]
  rw [show round2 (1 - ((0 : ℤ) : ℚ) / ((2000 : ℤ) : ℚ)) = 1 from by
    rw [round2]; norm_num [round_eq]]
  rfl

/-- Evaluation of the engine's flag collection on the bot-like run. -/
theorem engineFlags_bot_eval :
    engineFlags [] [] "s" botLogin = .ok [formFlag, mouseFlag, timeFlag] := by
  have h0 : engineFlags [] [] "s" botLogin =
      .ok [check_form botLogin, mkMouseRes true "No mouse movements" 0.9,
           check_submit_time botLogin] := rfl
  rw [h0, check_form_bot, check_time_bot]
  rfl

/-- Sorting the three collected flags: the two confidence-1.0 flags keep
their production order ahead of the 0.9 mouse flag. -/
theorem sort_bot_eval :
    sortFlagsDesc [formFlag, mouseFlag, timeFlag] = [formFlag, timeFlag, mouseFlag] := by
  have h1 : ¬((1 : ℚ) ≤ (0.9 : ℚ)) := by norm_num
  simp [sortFlagsDesc, insertDesc, formFlag, timeFlag, mouseFlag, mkMouseRes, h1]

/-- The maximal confidence over the three collected flags is 1. -/
theorem max_bot_eval :
    maxConfFold formFlag.confidence [mouseFlag, timeFlag] = 1 := by
  simp only [maxConfFold, List.foldl, formFlag, timeFlag, mouseFlag, mkMouseRes]
  norm_num [max_def]

/-- Evaluation of the whole engine on the bot-like run. -/
theorem analyze_bot_eval :
    analyze_session [] [] "s" botLogin 0 = .ok botVerdict := by
  rw [analyze_session, engineFlags_bot_eval]
  simp only [Except.map]
  rw [sort_bot_eval, max_bot_eval]
  rfl

/-- Witness for C1 at the bot-like run (three flags, maximum confidence
1.0). -/
theorem claim_C1_witness :
    (botVerdict.is_bot = true ↔ botVerdict.flags ≠ []) ∧
    (botVerdict.flags = [] → botVerdict.confidence = 0) ∧
    (∀ f ∈ botVerdict.flags, f.confidence ≤ botVerdict.confidence) ∧
    (botVerdict.flags ≠ [] → ∃ f ∈ botVerdict.flags, botVerdict.confidence = f.confidence) :=
  claim_C1_verdict_aggregation [] [] "s" botLogin 0 botVerdict analyze_bot_eval

/-- Witness for C2 (amended) at the bot-like run. -/
theorem claim_C2_witness :
    ∃ fs, engineFlags [] [] "s" botLogin = .ok fs ∧
      (∀ f ∈ fs, f.is_bot = true) ∧
      botVerdict.flags = sortFlagsDesc fs ∧
      botVerdict.flags.Pairwise (fun a b => b.confidence ≤ a.confidence) ∧
      (∀ c : ℚ, botVerdict.flags.filter (fun f => decide (f.confidence = c)) =
        fs.filter (fun f => decide (f.confidence = c))) ∧
      botVerdict.reason = (match botVerdict.flags with
        | [] => "Human behavior detected"
        | f :: _ => f.reason) :=
  claim_C2_flag_order [] [] "s" botLogin 0 botVerdict analyze_bot_eval
